import Mathlib

/-!
Verification development for the Installer repository: shallow embeddings of
the downloader and installer scripts (ComfyUI_WanLightning.py,
Automatic1111_Models.py, ComfyUI_Installer.py, Automatic1111_Installer.py,
setup_runpod.py) together with theorems settling the frozen claims about them.
-/

set_option maxRecDepth 8000

namespace Installer

/-! ### Python string primitives, modelled on lists of characters

These model the exact Python operations the scripts use:
`needle in hay` (substring test), `str.endswith`, `str.split(sep)`,
`os.path.basename`, `os.path.dirname`, `os.path.join`, and
`urllib.parse.urlparse(url).path` for scheme://host/path URLs. -/

/-- Does `hay` start with `needle`? (Python `hay.startswith(needle)`.) -/
def startsWithChars : List Char → List Char → Bool
  | [], _ => true
  | _ :: _, [] => false
  | a :: as, b :: bs => a == b && startsWithChars as bs

/-- Python substring test `needle in hay`, with arguments (needle, hay). -/
def containsChars (needle : List Char) : List Char → Bool
  | [] => startsWithChars needle []
  | c :: cs => startsWithChars needle (c :: cs) || containsChars needle cs

/-- Python `hay in needle`-style test lifted to `String`: `strContains hay needle`
is Python `needle in hay`. -/
def strContains (hay needle : String) : Bool :=
  containsChars needle.toList hay.toList

/-- Python `s.endswith(suffix)`. -/
def strEndsWith (s suffix : String) : Bool :=
  startsWithChars suffix.toList.reverse s.toList.reverse

/-- First occurrence split: if `needle` (nonempty) occurs in `hay`, return the
text before the first occurrence and the text after it. -/
def findSplitChars (needle : List Char) : List Char → Option (List Char × List Char)
  | [] => none
  | c :: cs =>
    if startsWithChars needle (c :: cs) then
      some ([], (c :: cs).drop needle.length)
    else
      match findSplitChars needle cs with
      | some (pre, post) => some (c :: pre, post)
      | none => none

/-- Fuel-driven worker for Python `str.split(sep)` with a nonempty separator.
The fuel only bounds the number of separator occurrences, and
`hay.length` fuel always suffices for a nonempty separator. -/
def splitOnCharsFuel (needle : List Char) : Nat → List Char → List (List Char)
  | 0, hay => [hay]
  | fuel + 1, hay =>
    match findSplitChars needle hay with
    | none => [hay]
    | some (pre, post) => pre :: splitOnCharsFuel needle fuel post

/-- Python `hay.split(needle)` (for the nonempty separators the scripts use). -/
def splitOnChars (needle hay : List Char) : List (List Char) :=
  if needle.isEmpty then [hay] else splitOnCharsFuel needle hay.length hay

/-- Python `hay.split(sep)` on `String`s. -/
def strSplit (hay sep : String) : List String :=
  (splitOnChars sep.toList hay.toList).map List.asString

/-- The characters after the last `/` (worker for `os.path.basename`). -/
def afterLastSlash (cs : List Char) : List Char :=
  (cs.reverse.takeWhile (fun c => c != '/')).reverse

/-- `urllib.parse.urlparse(url).path` for the `scheme://host/path[?query]`
URLs appearing in the scripts: the text from the first `/` after `://`,
truncated at `?` or `#`. -/
def urlparsePath (url : String) : String :=
  let rest :=
    match findSplitChars "://".toList url.toList with
    | some (_, post) => post
    | none => url.toList
  let path := rest.dropWhile (fun c => c != '/')
  ((path.takeWhile (fun c => c != '?')).takeWhile (fun c => c != '#')).asString

/-- `os.path.basename` (for the slash-containing paths the scripts use). -/
def osBasename (p : String) : String :=
  (afterLastSlash p.toList).asString

/-- `os.path.dirname` (for the slash-containing paths the scripts use). -/
def osDirname (p : String) : String :=
  (p.toList.reverse.dropWhile (fun c => c != '/') |>.drop 1).reverse.asString

/-- `os.path.join a b` for a non-empty absolute `a` without trailing slash and
a relative `b`, which is the only way the scripts use it. -/
def osJoin (a b : String) : String := a ++ "/" ++ b

/-! ### ComfyUI_WanLightning.py: configuration tables (lines 15-29) -/

/-- `COMFYUI_PATH` (ComfyUI_WanLightning.py line 15). -/
def COMFYUI_PATH : String := "/workspace/ComfyUI"

/-- `MODEL_URLS` (ComfyUI_WanLightning.py lines 16-22). -/
def MODEL_URLS : List String :=
  ["https://huggingface.co/bullerwins/Wan2.2-I2V-A14B-GGUF/resolve/main/wan2.2_i2v_high_noise_14B_Q6_K.gguf",
   "https://huggingface.co/bullerwins/Wan2.2-I2V-A14B-GGUF/resolve/main/wan2.2_i2v_low_noise_14B_Q6_K.gguf",
   "https://huggingface.co/Comfy-Org/Wan_2.2_ComfyUI_Repackaged/resolve/main/split_files/vae/wan_2.1_vae.safetensors",
   "https://huggingface.co/Comfy-Org/Wan_2.2_ComfyUI_Repackaged/resolve/main/split_files/text_encoders/umt5_xxl_fp8_e4m3fn_scaled.safetensors",
   "https://huggingface.co/Kijai/WanVideo_comfy/resolve/main/Lightx2v/lightx2v_I2V_14B_480p_cfg_step_distill_rank64_bf16.safetensors"]

/-- `XET_REPO_MAPPING` (ComfyUI_WanLightning.py lines 25-29), in the dict's
insertion order, which is the order Python 3.7+ iterates it. -/
def XET_REPO_MAPPING : List (String × String) :=
  [("Comfy-Org/Wan_2.2_ComfyUI_Repackaged",
    "xet://XetHub/ComfyUI-Models/main/Comfy-Org/Wan_2.2_ComfyUI_Repackaged"),
   ("Kijai/WanVideo_comfy",
    "xet://XetHub/ComfyUI-Models/main/Kijai/WanVideo_comfy"),
   ("bullerwins/Wan2.2-I2V-A14B-GGUF",
    "xet://XetHub/ComfyUI-Models/main/bullerwins/Wan2.2-I2V-A14B-GGUF")]

/-! ### ComfyUI_WanLightning.py: pure path logic (lines 40-47 and 110-138) -/

/-- Worker for `get_xet_path`: the `for hf_path, xet_path in ...items()` loop
with its early `return` (ComfyUI_WanLightning.py lines 42-46).
`url.split(hf_path)[1]` is the text between the first and second occurrence of
`hf_path`; the guard `hf_path in url` makes index 1 exist, and the
`.getD 1 ""` default is unreachable under that guard. -/
def getXetPathLoop (url : String) : List (String × String) → Option String
  | [] => none
  | (hfPath, xetPath) :: rest =>
    if strContains url hfPath then
      some (xetPath ++ (strSplit url hfPath).getD 1 "")
    else
      getXetPathLoop url rest

/-- `get_xet_path` (ComfyUI_WanLightning.py lines 40-47): convert a
HuggingFace URL to a Xet path if a mapping entry matches, else `None`. -/
def get_xet_path (url : String) : Option String :=
  getXetPathLoop url XET_REPO_MAPPING

/-- The three directories created by `create_directories`
(ComfyUI_WanLightning.py lines 110-121), as full paths. -/
def created_directories : List String :=
  ["models/diffusion_models", "models/vae", "models/clip"].map
    (fun directory => osJoin COMFYUI_PATH directory)

/-- The branch of `get_destination_path` a URL reaches, with the same guards
in the same order as the source (ComfyUI_WanLightning.py lines 127-138). -/
inductive DestBranch where
  | ggufDiffusion   | otherDiffusion   | vaeModels   | textEncoders   | fallbackModels
  deriving DecidableEq, Repr

/-- Which branch of `get_destination_path` fires for `url`
(guards verbatim from ComfyUI_WanLightning.py lines 128-137). -/
def destination_branch (url : String) : DestBranch :=
  if strContains url "wan2.2_i2v" && strEndsWith url ".gguf" then
    DestBranch.ggufDiffusion
  else if strContains url "diffusion_models" || strContains url "Lightx2v" then
    DestBranch.otherDiffusion
  else if strContains url "vae" then
    DestBranch.vaeModels
  else if strContains url "text_encoders" then
    DestBranch.textEncoders
  else
    DestBranch.fallbackModels

/-- `get_destination_path` (ComfyUI_WanLightning.py lines 123-138):
`filename = os.path.basename(urlparse(url).path)` and then the branch on the
URL's content. -/
def get_destination_path (url : String) : String :=
  let filename := osBasename (urlparsePath url)
  if strContains url "wan2.2_i2v" && strEndsWith url ".gguf" then
    osJoin (osJoin (osJoin COMFYUI_PATH "models") "diffusion_models") filename
  else if strContains url "diffusion_models" || strContains url "Lightx2v" then
    osJoin (osJoin (osJoin COMFYUI_PATH "models") "diffusion_models") filename
  else if strContains url "vae" then
    osJoin (osJoin (osJoin COMFYUI_PATH "models") "vae") filename
  else if strContains url "text_encoders" then
    osJoin (osJoin (osJoin COMFYUI_PATH "models") "clip") filename
  else
    osJoin (osJoin COMFYUI_PATH "models") filename

/-! ### Exceptions and filesystem state

The download helpers are embedded with the exceptions their primitives can
raise made explicit (`Except`), so that the helpers' own `try`/`except`
structure is visible, and with the destination-file state threaded through
(`Fs`), so that their write effects are visible. -/

/-- The Python exceptions the modelled primitives can raise. Every one of
these is a subclass of Python's `Exception`. -/
inductive PyExc where
  | requestsConnError   -- requests.exceptions.ConnectionError, from requests.get
  | httpStatusError     -- requests.exceptions.HTTPError, from raise_for_status
  | osWriteError        -- OSError from os.makedirs / open / file.write
  | timeoutExpired      -- subprocess.TimeoutExpired
  | calledProcessError  -- subprocess.CalledProcessError
  | fileNotFoundError   -- FileNotFoundError
  deriving DecidableEq, Repr

/-- Whether a raised exception is an instance of Python's `Exception` class
(what a bare `except Exception` clause catches). Spelled per constructor,
following the Python class hierarchy: each modelled exception derives from
`Exception`. -/
def isExceptionInstance : PyExc → Bool
  | PyExc.requestsConnError => true
  | PyExc.httpStatusError => true
  | PyExc.osWriteError => true
  | PyExc.timeoutExpired => true
  | PyExc.calledProcessError => true
  | PyExc.fileNotFoundError => true

/-- File contents are modelled as the list of written chunk sizes; the
filesystem maps a path to the contents of the file there, if any.
`os.path.exists(p)` is `(fs p).isSome`. -/
def Fs : Type := String → Option (List Nat)

/-- Write (or truncate/remove) one path of the filesystem. -/
def setFs (fs : Fs) (p : String) (v : Option (List Nat)) : Fs :=
  fun q => if q = p then v else fs q

/-- The filesystem with no modelled files. -/
def emptyFs : Fs := fun _ => none

/-- Python truthiness of the result of a helper that, per its `try`/`except`
structure, always returns a `bool`; an escaped exception is never truthy
(this branch is unreachable for the helpers below). -/
def exceptBool : Except PyExc Bool → Bool
  | Except.ok b => b
  | Except.error _ => false

/-! ### ComfyUI_WanLightning.py: `download_with_xet` (lines 49-73) -/

/-- Oracle for one `download_with_xet` call: what its primitives do.
`makedirsExc`: whether `os.makedirs` (line 55) raises; `runExc`: whether
`subprocess.run(["xet", "cp", ...], timeout=3600)` (line 59) raises
(e.g. `timeoutExpired`); `returncode`: the exit code of `xet cp` when it runs
to completion. -/
structure XetOracle where
  makedirsExc : Option PyExc
  runExc : Option PyExc
  returncode : Nat
  deriving Repr

/-- The `try` body of `download_with_xet` (lines 52-66): makedirs, run
`xet cp`, and return `returncode == 0`. -/
def xetBody (o : XetOracle) : Except PyExc Bool :=
  match o.makedirsExc with
  | some e => Except.error e
  | none =>
    match o.runExc with
    | some e => Except.error e
    | none => Except.ok (o.returncode == 0)

/-- `download_with_xet` (ComfyUI_WanLightning.py lines 49-73): the body with
its two handlers, `except subprocess.TimeoutExpired: return False` (line 68)
and `except Exception: return False` (line 71). -/
def download_with_xet (o : XetOracle) : Except PyExc Bool :=
  match xetBody o with
  | Except.ok b => Except.ok b
  | Except.error PyExc.timeoutExpired => Except.ok false
  | Except.error e =>
    if isExceptionInstance e then Except.ok false else Except.error e

/-- Whether a `download_with_xet` call succeeds: no primitive raises and
`xet cp` exits 0. -/
def xetSucceeds (o : XetOracle) : Bool :=
  o.makedirsExc.isNone && o.runExc.isNone && (o.returncode == 0)

/-! ### ComfyUI_WanLightning.py: `download_with_requests` (lines 75-108) -/

/-- Oracle for one streamed HTTP download: what the network and filesystem
primitives do. `makedirsExc`: whether `os.makedirs` raises (ComfyUI version,
line 81); `getExc`: whether `requests.get` itself raises; `statusOk`: whether
`raise_for_status` passes; `openExc`: whether `open(destination, 'wb')`
raises; `chunks`: the chunk sizes `iter_content` yields; `failAfter`: if
`some k`, the stream raises `streamExc` after `k` chunks have been handled. -/
structure ReqOracle where
  makedirsExc : Option PyExc
  getExc : Option PyExc
  statusOk : Bool
  openExc : Option PyExc
  chunks : List Nat
  failAfter : Option Nat
  streamExc : PyExc
  deriving Repr

/-- The bytes on disk after the first `k` chunks were handled: `open('wb')`
truncated the file, and each nonempty chunk was appended
(`if chunk: f.write(chunk)`, lines 93-96). -/
def writtenChunks (chunks : List Nat) (k : Nat) : List Nat :=
  (chunks.take k).filter (fun c => c != 0)

/-- The `try` body of `download_with_requests` (lines 78-104): makedirs, get,
raise_for_status, open (truncating the destination), chunk-write loop. -/
def requestsBody (o : ReqOracle) (fs : Fs) (destination : String) :
    Fs × Except PyExc Bool :=
  match o.makedirsExc with
  | some e => (fs, Except.error e)
  | none =>
  match o.getExc with
  | some e => (fs, Except.error e)
  | none =>
  if !o.statusOk then (fs, Except.error PyExc.httpStatusError)
  else
  match o.openExc with
  | some e => (fs, Except.error e)
  | none =>
  match o.failAfter with
  | some k =>
    (setFs fs destination (some (writtenChunks o.chunks k)), Except.error o.streamExc)
  | none =>
    (setFs fs destination (some (writtenChunks o.chunks o.chunks.length)), Except.ok true)

/-- `download_with_requests` (ComfyUI_WanLightning.py lines 75-108): the body
with its single handler `except Exception: return False` (line 106), which
does not restore the partially written destination. -/
def download_with_requests (o : ReqOracle) (fs : Fs) (destination : String) :
    Fs × Except PyExc Bool :=
  match requestsBody o fs destination with
  | (fs', Except.ok b) => (fs', Except.ok b)
  | (fs', Except.error e) =>
    if isExceptionInstance e then (fs', Except.ok false) else (fs', Except.error e)

/-- Whether a `download_with_requests` call succeeds: every primitive step
completes. -/
def reqSucceeds (o : ReqOracle) : Bool :=
  o.makedirsExc.isNone && o.getExc.isNone && o.statusOk &&
    o.openExc.isNone && o.failAfter.isNone

/-! ### Automatic1111_Models.py: `download_file` (lines 10-38) -/

/-- Oracle for one `download_file` call (no makedirs in this version). -/
structure FileOracle where
  getExc : Option PyExc
  statusOk : Bool
  openExc : Option PyExc
  chunks : List Nat
  failAfter : Option Nat
  streamExc : PyExc
  deriving Repr

/-- The `try` body of `download_file` (lines 13-34). The `headers` argument
(defaulted to `{}` when `None`, lines 15-16) selects the request headers; the
modelled response behaviour for the chosen headers is in the oracle. -/
def fileBody (headers : Option (List (String × String))) (o : FileOracle)
    (fs : Fs) (destination : String) : Fs × Except PyExc Bool :=
  let _headersUsed := headers.getD []
  match o.getExc with
  | some e => (fs, Except.error e)
  | none =>
  if !o.statusOk then (fs, Except.error PyExc.httpStatusError)
  else
  match o.openExc with
  | some e => (fs, Except.error e)
  | none =>
  match o.failAfter with
  | some k =>
    (setFs fs destination (some (writtenChunks o.chunks k)), Except.error o.streamExc)
  | none =>
    (setFs fs destination (some (writtenChunks o.chunks o.chunks.length)), Except.ok true)

/-- `download_file` (Automatic1111_Models.py lines 10-38): the body with its
handler `except Exception: return False` (line 36). -/
def download_file (headers : Option (List (String × String))) (o : FileOracle)
    (fs : Fs) (destination : String) : Fs × Except PyExc Bool :=
  match fileBody headers o fs destination with
  | (fs', Except.ok b) => (fs', Except.ok b)
  | (fs', Except.error e) =>
    if isExceptionInstance e then (fs', Except.ok false) else (fs', Except.error e)

/-- Whether a `download_file` call succeeds. -/
def fileSucceeds (o : FileOracle) : Bool :=
  o.getExc.isNone && o.statusOk && o.openExc.isNone && o.failAfter.isNone

/-! ### ComfyUI_WanLightning.py: the per-URL body of `main`'s loop
(lines 189-219) -/

/-- The downloads `main` attempts for one URL, in order. -/
inductive Attempt where
  | xet | http
  deriving DecidableEq, Repr

/-- Per-URL oracle: the behaviour of the one possible Xet attempt (with the
content `xet cp` would write on success) and of the one possible requests
attempt. -/
structure UrlOracle where
  xetOracle : XetOracle
  xetContent : List Nat
  reqOracle : ReqOracle
  deriving Repr

/-- What one iteration of `main`'s download loop produced: the filesystem
afterwards, the download attempts made, the increments of `success_count`,
`xet_success_count` and `manual_success_count`, and whether the
`"❌ Failed to download"` report was printed. -/
structure UrlOutcome where
  fs : Fs
  attempts : List Attempt
  succDelta : Nat
  xetDelta : Nat
  manualDelta : Nat
  reportedFailed : Bool

/-- One iteration of the download loop in `main`
(ComfyUI_WanLightning.py lines 189-219): skip existing destinations, counting
them as successes (lines 193-197); otherwise try Xet first when it is
available and a mapping exists (lines 200-211, the `downloaded` flag), and
fall back to exactly one `download_with_requests` call when the Xet path did
not download (lines 214-219). -/
def processUrl (xetAvailable : Bool) (o : UrlOracle) (fs : Fs) (url : String) :
    UrlOutcome :=
  let destination := get_destination_path url
  if (fs destination).isSome then
    { fs := fs, attempts := [], succDelta := 1, xetDelta := 0, manualDelta := 0,
      reportedFailed := false }
  else
    let tryXet := xetAvailable && (get_xet_path url).isSome
    let xetDownloaded := tryXet && exceptBool (download_with_xet o.xetOracle)
    let fs1 := if xetDownloaded then setFs fs destination (some o.xetContent) else fs
    let xetAttempts := if tryXet then [Attempt.xet] else []
    if xetDownloaded then
      { fs := fs1, attempts := xetAttempts, succDelta := 1, xetDelta := 1,
        manualDelta := 0, reportedFailed := false }
    else
      let dr := download_with_requests o.reqOracle fs1 destination
      if exceptBool dr.2 then
        { fs := dr.1, attempts := xetAttempts ++ [Attempt.http], succDelta := 1,
          xetDelta := 0, manualDelta := 1, reportedFailed := false }
      else
        { fs := dr.1, attempts := xetAttempts ++ [Attempt.http], succDelta := 0,
          xetDelta := 0, manualDelta := 0, reportedFailed := true }

/-! ### ComfyUI_WanLightning.py: the whole of `main` (lines 155-241),
at the level of exit status and failure events -/

/-- Oracle for one catalog entry: the behaviour of the authenticated attempt
and of the unauthenticated retry. -/
structure EntryOracle where
  first : FileOracle
  second : FileOracle
  deriving Repr

/-- The body of the per-entry loop shared verbatim by `download_models`
(Automatic1111_Models.py lines 84-92) and `download_loras` (lines 192-200):
skip an existing destination; otherwise download with the prepared `headers`
(`Authorization: Bearer <key>` exactly when `CIVITAI_API_KEY` is non-empty,
lines 79-82 and 188-190), and on failure with a non-empty key retry once with
no auth headers (line 90/198). Returns the filesystem and the headers
argument of each `download_file` call made, in order. -/
def civitaiEntryDownload (apiKey : String) (o : EntryOracle) (fs : Fs)
    (destination : String) :
    Fs × List (Option (List (String × String))) :=
  if (fs destination).isSome then
    (fs, [])
  else
    let headers : List (String × String) :=
      if apiKey != "" then [("Authorization", "Bearer " ++ apiKey)] else []
    let r1 := download_file (some headers) o.first fs destination
    if !(exceptBool r1.2) && apiKey != "" then
      let r2 := download_file none o.second r1.1 destination
      (r2.1, [some headers, none])
    else
      (r1.1, [some headers])

/-- The body of the per-entry loop of the single-attempt catalog functions
(`download_codeformer` lines 100-105, and likewise `download_controlnet`,
`download_esrgan`, `download_remacri`, `download_dfpgan`,
`download_realesrgan`): skip an existing destination, else one
`download_file` call with default headers. -/
def simpleEntryDownload (o : FileOracle) (fs : Fs) (destination : String) :
    Fs × List (Option (List (String × String))) :=
  if (fs destination).isSome then
    (fs, [])
  else
    let r := download_file none o fs destination
    (r.1, [none])

/-! ### The installer and setup scripts as sequences of checked steps

`ComfyUI_Installer.py`, `Automatic1111_Installer.py` and
`SYSTEM/setup_runpod.py` are straight-line sequences of steps. Each step is a
pair of an identifier and a `checked` flag: for a checked step, failure ends
the script with exit status 1 (`sys.exit(1)` after a failed `run_command`, a
`return False` propagated to `sys.exit(0 if success else 1)`, or an uncaught
exception); for an unchecked step (`check=False` in setup_runpod's
`run_command`), failure is reported and the script continues. -/

/-- Run a sequence of steps under an environment giving each step's success:
returns the executed steps in order and the script's exit status. -/
def runSeq {α : Type} (env : α → Bool) : List (α × Bool) → List (α × Bool) × Nat
  | [] => ([], 0)
  | item :: rest =>
    if env item.1 then
      let r := runSeq env rest
      (item :: r.1, r.2)
    else if item.2 then
      ([item], 1)
    else
      let r := runSeq env rest
      (item :: r.1, r.2)

/-! ### AI APP/ComfyUI_Installer.py: `main` (lines 27-97) -/

/-- The steps of the ComfyUI installer's `main`, in program order. -/
inductive CIStep where
  /-- `conda create --prefix ... python=3.11 -y` (line 39). -/
  | condaCreate
  /-- `os.makedirs(envs_path, exist_ok=True)` (line 46). -/
  | makedirsEnvs
  /-- `git clone .../ComfyUI.git` (line 53). -/
  | gitCloneComfyUI
  /-- `conda run ... pip install torch torchvision torchaudio ...` (line 58). -/
  | pipInstallTorch
  /-- `conda run ... pip install -r requirements.txt` (line 66). -/
  | pipInstallReqs
  /-- `os.makedirs(custom_nodes_path, exist_ok=True)` (line 76). -/
  | makedirsCustomNodes
  /-- `git clone .../ComfyUI-Manager.git` (line 83). -/
  | gitCloneManager
  deriving DecidableEq, Repr

/-- `main` of ComfyUI_Installer.py as a step sequence: every step is checked
(each failed `run_command` or caught makedirs exception is followed by
`sys.exit(1)`, lines 40-86). -/
def comfyInstallerProgram : List (CIStep × Bool) :=
  [(CIStep.condaCreate, true), (CIStep.makedirsEnvs, true),
   (CIStep.gitCloneComfyUI, true), (CIStep.pipInstallTorch, true),
   (CIStep.pipInstallReqs, true), (CIStep.makedirsCustomNodes, true),
   (CIStep.gitCloneManager, true)]

/-- One run of ComfyUI_Installer.py under an environment giving each step's
success. -/
def comfyInstallerRun (env : CIStep → Bool) : List (CIStep × Bool) × Nat :=
  runSeq env comfyInstallerProgram

/-- The phase each ComfyUI-installer step belongs to, on the spec's scale:
1 environment setup, 2 repository clone, 3 dependency install,
4 artifact generation (writing shell launch scripts), 5 custom-node
installation. No step of this script is in phase 4. -/
def ciPhase : CIStep → Nat
  | CIStep.condaCreate => 1
  | CIStep.makedirsEnvs => 1
  | CIStep.gitCloneComfyUI => 2
  | CIStep.pipInstallTorch => 3
  | CIStep.pipInstallReqs => 3
  | CIStep.makedirsCustomNodes => 5
  | CIStep.gitCloneManager => 5

/-- Whether a ComfyUI-installer step writes a shell launch script. Checked
against the source step by step: `main` (lines 27-97) runs conda, makedirs,
git and pip and prints a summary; it opens no file for writing. -/
def ciWritesLaunchScript : CIStep → Bool
  | CIStep.condaCreate => false
  | CIStep.makedirsEnvs => false
  | CIStep.gitCloneComfyUI => false
  | CIStep.pipInstallTorch => false
  | CIStep.pipInstallReqs => false
  | CIStep.makedirsCustomNodes => false
  | CIStep.gitCloneManager => false

/-! ### AI APP/Automatic1111_Installer.py: `WebUIInstaller.install`
(lines 253-303) -/

/-- The steps of the Automatic1111 installer's `install`, in program order. -/
inductive AIStep where
  /-- `conda --version` inside `check_dependencies` (line 28). -/
  | checkConda
  /-- `git --version` inside `check_dependencies` (line 36). -/
  | checkGit
  /-- `create_directory_structure` (lines 44-62, `mkdir` calls). -/
  | createDirs
  /-- `conda create --prefix ... python=3.10 -y` (line 72). -/
  | condaCreate
  /-- `git clone .../stable-diffusion-webui.git` (line 98); skipped when
  `webui_dir/.git` already exists (line 93). -/
  | cloneWebUI
  /-- `conda run ... pip install torch torchvision torchaudio ...`
  (line 124). -/
  | pipInstallTorch
  /-- `conda run ... pip install -r requirements.txt` (line 142); runs when
  the requirements file exists. -/
  | pipInstallReqs
  /-- `conda run ... pip install xformers transformers ...` (line 166); runs
  when the requirements file is missing. -/
  | pipInstallEssentials
  /-- writing `launch_webui.sh` in `create_launch_script` (lines 184-220). -/
  | writeLaunchScript
  /-- writing `activate_env.sh` in `create_conda_activation_script`
  (lines 222-251). -/
  | writeActivationScript
  deriving DecidableEq, Repr

/-- `WebUIInstaller.install` as a step sequence, parameterised by the two
branch conditions read from the filesystem: whether `webui_dir/.git` exists
(line 93) and whether `requirements.txt` exists (line 141). Every step is
checked: each failure makes `install` return `False`, and `main` calls
`sys.exit(0 if success else 1)` (line 318); a `create_directory_structure`
exception escapes uncaught, which also ends the process non-zero. -/
def webuiInstallerProgram (gitDirExists reqsFileExists : Bool) :
    List (AIStep × Bool) :=
  [(AIStep.checkConda, true), (AIStep.checkGit, true),
   (AIStep.createDirs, true), (AIStep.condaCreate, true)]
  ++ (if gitDirExists then [] else [(AIStep.cloneWebUI, true)])
  ++ [(AIStep.pipInstallTorch, true)]
  ++ (if reqsFileExists then [(AIStep.pipInstallReqs, true)]
      else [(AIStep.pipInstallEssentials, true)])
  ++ [(AIStep.writeLaunchScript, true), (AIStep.writeActivationScript, true)]

/-- One run of Automatic1111_Installer.py under an environment giving each
step's success. -/
def webuiInstallerRun (gitDirExists reqsFileExists : Bool)
    (env : AIStep → Bool) : List (AIStep × Bool) × Nat :=
  runSeq env (webuiInstallerProgram gitDirExists reqsFileExists)

/-- The phase each Automatic1111-installer step belongs to:
0 dependency checks and directory creation, 1 environment setup,
2 repository clone, 3 dependency install, 4 artifact generation. -/
def aiPhase : AIStep → Nat
  | AIStep.checkConda => 0
  | AIStep.checkGit => 0
  | AIStep.createDirs => 0
  | AIStep.condaCreate => 1
  | AIStep.cloneWebUI => 2
  | AIStep.pipInstallTorch => 3
  | AIStep.pipInstallReqs => 3
  | AIStep.pipInstallEssentials => 3
  | AIStep.writeLaunchScript => 4
  | AIStep.writeActivationScript => 4

/-- Whether an Automatic1111-installer step writes a shell launch script
(`launch_webui.sh` / `activate_env.sh`). -/
def aiWritesLaunchScript : AIStep → Bool
  | AIStep.writeLaunchScript => true
  | AIStep.writeActivationScript => true
  | _ => false

/-! ### SYSTEM/setup_runpod.py: `main` (lines 191-244) -/

/-- The external commands setup_runpod.py runs, in program order. -/
inductive SRCmd where
  /-- `apt-get update` (line 97). -/
  | aptUpdate
  /-- `apt-get install -y git` (line 98). -/
  | aptInstallGit
  /-- `apt-get install -y wget curl vim nano htop` (line 147). -/
  | aptInstallTools
  /-- `urllib.request.urlretrieve` of the Miniconda installer (line 80);
  an error there escapes uncaught and ends the process non-zero. -/
  | downloadMiniconda
  /-- `bash /tmp/miniconda.sh -b -p /opt/conda` (line 109). -/
  | bashMinicondaInstall
  /-- `/opt/conda/bin/conda init bash` (line 116). -/
  | condaInitBash
  /-- `eval "$(... conda shell.bash hook)"` (line 119). -/
  | condaShellHookA
  /-- `conda tos accept` for pkgs/main (line 87, `check=False`). -/
  | tosPkgsMain
  /-- `conda tos accept` for pkgs/r (`check=False`). -/
  | tosPkgsR
  /-- `conda tos accept` for defaults (`check=False`). -/
  | tosDefaults
  /-- `conda tos accept` for nvidia (`check=False`). -/
  | tosNvidia
  /-- `conda tos accept` for pytorch (`check=False`). -/
  | tosPytorch
  /-- `conda tos accept` for conda-forge (`check=False`). -/
  | tosCondaForge
  /-- `conda update -n base -c defaults conda -y` (line 136). -/
  | condaUpdate
  /-- `eval "$(... conda shell.bash hook)"` in `setup_environment`
  (line 161). -/
  | condaShellHookB
  /-- `conda create -n test_env -y` (line 171, `check=False`). -/
  | condaCreateTest
  /-- `conda env remove -n test_env -y` (line 178); runs only when the test
  creation succeeded (line 176). -/
  | condaRemoveTest
  deriving DecidableEq, Repr

/-- `main` of setup_runpod.py as a step sequence. A command run through
`run_command` with `check=True` exits the script with status 1 on failure
(lines 64-70); the six TOS acceptances and the conda test creation pass
`check=False` and only report failure. The final checked `conda env remove`
is in the program only when the environment made the test creation
succeed. -/
def setupProgram (condaTestOk : Bool) : List (SRCmd × Bool) :=
  [(SRCmd.aptUpdate, true), (SRCmd.aptInstallGit, true),
   (SRCmd.aptInstallTools, true), (SRCmd.downloadMiniconda, true),
   (SRCmd.bashMinicondaInstall, true), (SRCmd.condaInitBash, true),
   (SRCmd.condaShellHookA, true),
   (SRCmd.tosPkgsMain, false), (SRCmd.tosPkgsR, false),
   (SRCmd.tosDefaults, false), (SRCmd.tosNvidia, false),
   (SRCmd.tosPytorch, false), (SRCmd.tosCondaForge, false),
   (SRCmd.condaUpdate, true), (SRCmd.condaShellHookB, true),
   (SRCmd.condaCreateTest, false)]
  ++ (if condaTestOk then [(SRCmd.condaRemoveTest, true)] else [])

/-- One run of setup_runpod.py under an environment giving each command's
success. -/
def setupRun (env : SRCmd → Bool) : List (SRCmd × Bool) × Nat :=
  runSeq env (setupProgram (env SRCmd.condaCreateTest))

/-! ### The repository's external calls and their timeouts

One record per external-process invocation or HTTP request in the
repository's five executable scripts, read off call site by call site.
(`AI APP/Automatic1111_Launcher.py` only writes script text to disk, and
`AI APP/ComfyUI_Launcher.py` is a pasted document, not runnable Python;
neither performs an external call of its own.) -/

/-- One external call site: where it is, what it invokes, and the `timeout`
argument it passes, if any. -/
structure ExternalCall where
  file : String
  site : String
  timeoutSeconds : Option Nat
  deriving DecidableEq, Repr

/-- Every external-process invocation and HTTP request in the repository. -/
def externalCalls : List ExternalCall :=
  [⟨"DOWNLOADER/ComfyUI_WanLightning.py", "check_xet_installed: subprocess.run xet --version", some 10⟩,
   ⟨"DOWNLOADER/ComfyUI_WanLightning.py", "download_with_xet: subprocess.run xet cp", some 3600⟩,
   ⟨"DOWNLOADER/ComfyUI_WanLightning.py", "download_with_requests: requests.get", none⟩,
   ⟨"DOWNLOADER/ComfyUI_WanLightning.py", "install_requests_if_needed: subprocess.check_call pip install requests", none⟩,
   ⟨"DOWNLOADER/Automatic1111_Models.py", "download_file: requests.get", none⟩,
   ⟨"DOWNLOADER/Automatic1111_Models.py", "install_extensions: subprocess.run git clone", none⟩,
   ⟨"AI APP/ComfyUI_Installer.py", "main: subprocess.run conda create", none⟩,
   ⟨"AI APP/ComfyUI_Installer.py", "main: subprocess.run git clone ComfyUI", none⟩,
   ⟨"AI APP/ComfyUI_Installer.py", "main: subprocess.run pip install torch", none⟩,
   ⟨"AI APP/ComfyUI_Installer.py", "main: subprocess.run pip install -r requirements.txt", none⟩,
   ⟨"AI APP/ComfyUI_Installer.py", "main: subprocess.run git clone ComfyUI-Manager", none⟩,
   ⟨"AI APP/Automatic1111_Installer.py", "check_dependencies: subprocess.run conda --version", none⟩,
   ⟨"AI APP/Automatic1111_Installer.py", "check_dependencies: subprocess.run git --version", none⟩,
   ⟨"AI APP/Automatic1111_Installer.py", "setup_conda_environment: subprocess.run conda create", none⟩,
   ⟨"AI APP/Automatic1111_Installer.py", "clone_webui_repository: subprocess.run git clone", none⟩,
   ⟨"AI APP/Automatic1111_Installer.py", "install_webui_dependencies: subprocess.run pip install torch", none⟩,
   ⟨"AI APP/Automatic1111_Installer.py", "install_webui_dependencies: subprocess.run pip install -r", none⟩,
   ⟨"AI APP/Automatic1111_Installer.py", "install_webui_dependencies: subprocess.run pip install essentials", none⟩,
   ⟨"SYSTEM/setup_runpod.py", "download_with_progress: urllib.request.urlretrieve", none⟩,
   ⟨"SYSTEM/setup_runpod.py", "install_git: run_command apt-get update", none⟩,
   ⟨"SYSTEM/setup_runpod.py", "install_git: run_command apt-get install -y git", none⟩,
   ⟨"SYSTEM/setup_runpod.py", "install_essential_tools: run_command apt-get install tools", none⟩,
   ⟨"SYSTEM/setup_runpod.py", "install_miniconda: run_command bash miniconda.sh", none⟩,
   ⟨"SYSTEM/setup_runpod.py", "install_miniconda: run_command conda init bash", none⟩,
   ⟨"SYSTEM/setup_runpod.py", "install_miniconda: run_command conda shell.bash hook", none⟩,
   ⟨"SYSTEM/setup_runpod.py", "accept_conda_tos: run_command conda tos accept", none⟩,
   ⟨"SYSTEM/setup_runpod.py", "install_miniconda: run_command conda update", none⟩,
   ⟨"SYSTEM/setup_runpod.py", "setup_environment: run_command conda shell.bash hook", none⟩,
   ⟨"SYSTEM/setup_runpod.py", "test_conda_initialization: run_command conda create -n test_env", none⟩,
   ⟨"SYSTEM/setup_runpod.py", "test_conda_initialization: run_command conda env remove", none⟩]


/-! ### Concrete fixtures used by counterexamples and witnesses -/

/-- A Xet attempt that times out (`subprocess.TimeoutExpired`). -/
def xetFailOracle : XetOracle :=
  { makedirsExc := none, runExc := some PyExc.timeoutExpired, returncode := 0 }

/-- A Xet attempt that completes with exit code 0. -/
def xetOkOracle : XetOracle :=
  { makedirsExc := none, runExc := none, returncode := 0 }

/-- A streamed request that completes after two chunks. -/
def httpOkOracle : ReqOracle :=
  { makedirsExc := none, getExc := none, statusOk := true, openExc := none,
    chunks := [8192, 4096], failAfter := none, streamExc := PyExc.osWriteError }

/-- A streamed request whose connection drops after the first of two chunks
was written. -/
def httpDropOracle : ReqOracle :=
  { makedirsExc := none, getExc := none, statusOk := true, openExc := none,
    chunks := [8192, 4096], failAfter := some 1,
    streamExc := PyExc.requestsConnError }

/-- A `download_file` call that completes after one chunk. -/
def fileOkOracle : FileOracle :=
  { getExc := none, statusOk := true, openExc := none, chunks := [8192],
    failAfter := none, streamExc := PyExc.osWriteError }

/-- A `download_file` call rejected by `raise_for_status` (HTTP 401). -/
def fileAuthFailOracle : FileOracle :=
  { getExc := none, statusOk := false, openExc := none, chunks := [],
    failAfter := none, streamExc := PyExc.httpStatusError }

/-- A `download_file` call whose connection drops after the first of two
chunks was written. -/
def fileDropOracle : FileOracle :=
  { getExc := none, statusOk := true, openExc := none, chunks := [8192, 4096],
    failAfter := some 1, streamExc := PyExc.requestsConnError }

/-- Per-URL oracle: Xet attempt times out, manual download succeeds. -/
def urlOracleXetFail : UrlOracle :=
  { xetOracle := xetFailOracle, xetContent := [1024], reqOracle := httpOkOracle }

/-- The first entry of `MODEL_URLS`. -/
def firstModelUrl : String :=
  "https://huggingface.co/bullerwins/Wan2.2-I2V-A14B-GGUF/resolve/main/wan2.2_i2v_high_noise_14B_Q6_K.gguf"

/-- An environment for every step succeeding. -/
def ciEnvAllOk : CIStep → Bool := fun _ => true

/-- A setup environment in which only the first TOS acceptance fails. -/
def srEnvTosFail : SRCmd → Bool :=
  fun c => match c with
  | SRCmd.tosPkgsMain => false
  | _ => true

/-! ### Helper lemmas -/

theorem download_with_xet_eq (o : XetOracle) :
    download_with_xet o = Except.ok (xetSucceeds o) := by
  rcases o with ⟨me, re, rc⟩
  cases me with
  | some e => cases e <;> rfl
  | none =>
    cases re with
    | some e => cases e <;> rfl
    | none => rfl

theorem download_with_requests_eq (o : ReqOracle) (fs : Fs) (destination : String) :
    (download_with_requests o fs destination).2 = Except.ok (reqSucceeds o) := by
  rcases o with ⟨me, ge, st, oe, ch, fa, se⟩
  cases me with
  | some e =>
    cases e <;> simp [download_with_requests, requestsBody, reqSucceeds, isExceptionInstance]
  | none =>
    cases ge with
    | some e =>
      cases e <;> simp [download_with_requests, requestsBody, reqSucceeds, isExceptionInstance]
    | none =>
      cases st with
      | false => simp [download_with_requests, requestsBody, reqSucceeds, isExceptionInstance]
      | true =>
        cases oe with
        | some e =>
          cases e <;> simp [download_with_requests, requestsBody, reqSucceeds, isExceptionInstance]
        | none =>
          cases fa with
          | some k =>
            cases se <;> simp [download_with_requests, requestsBody, reqSucceeds, isExceptionInstance]
          | none => simp [download_with_requests, requestsBody, reqSucceeds]

theorem download_file_eq (headers : Option (List (String × String)))
    (o : FileOracle) (fs : Fs) (destination : String) :
    (download_file headers o fs destination).2 = Except.ok (fileSucceeds o) := by
  rcases o with ⟨ge, st, oe, ch, fa, se⟩
  cases ge with
  | some e =>
    cases e <;> simp [download_file, fileBody, fileSucceeds, isExceptionInstance]
  | none =>
    cases st with
    | false => simp [download_file, fileBody, fileSucceeds, isExceptionInstance]
    | true =>
      cases oe with
      | some e =>
        cases e <;> simp [download_file, fileBody, fileSucceeds, isExceptionInstance]
      | none =>
        cases fa with
        | some k =>
          cases se <;> simp [download_file, fileBody, fileSucceeds, isExceptionInstance]
        | none => simp [download_file, fileBody, fileSucceeds]

/-- `processUrl` on an already-existing destination: the skip branch. -/
theorem processUrl_skip (xetAvailable : Bool) (o : UrlOracle) (fs : Fs)
    (url : String) (c : List Nat)
    (h : fs (get_destination_path url) = some c) :
    processUrl xetAvailable o fs url =
      { fs := fs, attempts := [], succDelta := 1, xetDelta := 0,
        manualDelta := 0, reportedFailed := false } := by
  simp [processUrl, h]

/-- `processUrl` on a missing destination whose URL has a Xet mapping:
the attempt sequence and the failure report, as functions of the oracles. -/
theorem processUrl_attempts (xetAvailable : Bool) (o : UrlOracle) (fs : Fs)
    (url : String)
    (hfs : fs (get_destination_path url) = none)
    (hmap : (get_xet_path url).isSome = true) :
    (processUrl xetAvailable o fs url).attempts =
      ((if xetAvailable then [Attempt.xet] else []) ++
        (if xetAvailable && xetSucceeds o.xetOracle then [] else [Attempt.http]))
    ∧ (processUrl xetAvailable o fs url).reportedFailed =
        (!(xetAvailable && xetSucceeds o.xetOracle) && !(reqSucceeds o.reqOracle)) := by
  cases xetAvailable with
  | false =>
    simp only [processUrl, hfs, download_with_requests_eq, exceptBool]
    cases hr : reqSucceeds o.reqOracle <;> simp [hr]
  | true =>
    cases hx : xetSucceeds o.xetOracle with
    | true =>
      simp [processUrl, hfs, hmap, download_with_xet_eq, hx, exceptBool]
    | false =>
      simp only [processUrl, hfs, hmap, download_with_xet_eq, hx, exceptBool,
        download_with_requests_eq]
      cases hr : reqSucceeds o.reqOracle <;> simp [hr]

/-- The executed steps are an initial segment of the program. -/
theorem runSeq_exec_isPrefix {α : Type} (env : α → Bool) (l : List (α × Bool)) :
    (runSeq env l).1 <+: l := by
  induction l with
  | nil => simp [runSeq]
  | cons a t ih =>
    by_cases h : env a.1
    · obtain ⟨u, hu⟩ := ih
      exact ⟨u, by simp [runSeq, h, hu]⟩
    · by_cases hc : a.2
      · exact ⟨t, by simp [runSeq, h, hc]⟩
      · obtain ⟨u, hu⟩ := ih
        exact ⟨u, by simp [runSeq, h, hc, hu]⟩

/-- A checked step that is executed and fails is the last step executed, and
the script exits with status 1. -/
theorem runSeq_checked_fail {α : Type} (env : α → Bool) (l : List (α × Bool))
    (i : α × Bool) (hmem : i ∈ (runSeq env l).1) (hchk : i.2 = true)
    (hfail : env i.1 = false) :
    (runSeq env l).2 = 1 ∧ (runSeq env l).1.getLast? = some i := by
  induction l with
  | nil => simp [runSeq] at hmem
  | cons a t ih =>
    rw [runSeq] at hmem ⊢
    by_cases h : env a.1 = true
    · rw [if_pos h] at hmem ⊢
      rcases List.mem_cons.mp hmem with heq | hmem'
      · rw [heq] at hfail; rw [hfail] at h; exact Bool.noConfusion h
      · have hih := ih hmem'
        refine ⟨hih.1, ?_⟩
        show (a :: (runSeq env t).1).getLast? = some i
        rw [List.getLast?_cons, hih.2]
        rfl
    · rw [if_neg h] at hmem ⊢
      by_cases hc : a.2 = true
      · rw [if_pos hc] at hmem ⊢
        rcases List.mem_cons.mp hmem with heq | hmem'
        · rw [heq]; exact ⟨rfl, rfl⟩
        · simp at hmem'
      · rw [if_neg hc] at hmem ⊢
        rcases List.mem_cons.mp hmem with heq | hmem'
        · rw [heq] at hchk; exact absurd hchk hc
        · have hih := ih hmem'
          refine ⟨hih.1, ?_⟩
          show (a :: (runSeq env t).1).getLast? = some i
          rw [List.getLast?_cons, hih.2]
          rfl

/-- If every checked step of the program succeeds, the whole program executes
(failures of unchecked steps are reported and skipped over) and the script
exits with status 0. -/
theorem runSeq_all_checked_ok {α : Type} (env : α → Bool) (l : List (α × Bool))
    (h : ∀ i ∈ l, i.2 = true → env i.1 = true) :
    runSeq env l = (l, 0) := by
  induction l with
  | nil => rfl
  | cons a t ih =>
    have ht : ∀ i ∈ t, i.2 = true → env i.1 = true := fun i hi => h i (List.mem_cons_of_mem a hi)
    by_cases ha : env a.1
    · rw [runSeq]; simp [ha, ih ht]
    · have hc : a.2 = false := by
        cases hac : a.2
        · rfl
        · exact absurd (h a (List.mem_cons_self a t) hac) ha
      rw [runSeq]; simp [ha, hc, ih ht]

/-! ### The claims -/

/-- Claim C6: every URL in `MODEL_URLS` is routed by `get_destination_path`
to one of the three directories made by `create_directories`: the two
`wan2.2_i2v` `.gguf` URLs and the `Lightx2v` URL to `models/diffusion_models`,
the `vae` URL to `models/vae`, the `text_encoders` URL to `models/clip`, each
with the filename taken from the URL path; the final fallback branch (bare
`COMFYUI_PATH/models`) is reached for none of the five URLs. -/
theorem claim6_destination_paths :
    MODEL_URLS.map get_destination_path =
      ["/workspace/ComfyUI/models/diffusion_models/wan2.2_i2v_high_noise_14B_Q6_K.gguf",
       "/workspace/ComfyUI/models/diffusion_models/wan2.2_i2v_low_noise_14B_Q6_K.gguf",
       "/workspace/ComfyUI/models/vae/wan_2.1_vae.safetensors",
       "/workspace/ComfyUI/models/clip/umt5_xxl_fp8_e4m3fn_scaled.safetensors",
       "/workspace/ComfyUI/models/diffusion_models/lightx2v_I2V_14B_480p_cfg_step_distill_rank64_bf16.safetensors"]
    ∧ MODEL_URLS.map destination_branch =
      [DestBranch.ggufDiffusion, DestBranch.ggufDiffusion, DestBranch.vaeModels,
       DestBranch.textEncoders, DestBranch.otherDiffusion]
    ∧ (MODEL_URLS.map (fun u => osDirname (get_destination_path u))).all
        (fun d => created_directories.contains d) = true := by
  refine ⟨by decide, by decide, by decide⟩

/-- Claim C10: the download helpers `download_file`, `download_with_xet` and
`download_with_requests` are total at their public boundary: for every input
they return a Boolean (`True` on success, `False` on any failure, including
exceptions raised internally) and never propagate an exception to their
caller. -/
theorem claim10_total_boolean_helpers :
    (∀ (headers : Option (List (String × String))) (o : FileOracle)
       (fs : Fs) (destination : String),
       (download_file headers o fs destination).2 = Except.ok (fileSucceeds o))
    ∧ (∀ o : XetOracle, download_with_xet o = Except.ok (xetSucceeds o))
    ∧ (∀ (o : ReqOracle) (fs : Fs) (destination : String),
       (download_with_requests o fs destination).2 = Except.ok (reqSucceeds o)) :=
  ⟨download_file_eq, download_with_xet_eq, download_with_requests_eq⟩

/-- Claim C1: for every URL in `MODEL_URLS` whose destination file does not
already exist: every such URL has an entry in `XET_REPO_MAPPING`; when Xet is
available one Xet download is attempted first; when that attempt fails or Xet
is unavailable, exactly one plain HTTP download is attempted as fallback; and
the URL is reported as failed exactly when no attempted path succeeded. -/
theorem claim1_xet_then_http_fallback (xetAvailable : Bool) (o : UrlOracle)
    (fs : Fs) (url : String) (hmem : url ∈ MODEL_URLS)
    (hfs : fs (get_destination_path url) = none) :
    (get_xet_path url).isSome = true
    ∧ (processUrl xetAvailable o fs url).attempts =
        ((if xetAvailable then [Attempt.xet] else []) ++
          (if xetAvailable && xetSucceeds o.xetOracle then [] else [Attempt.http]))
    ∧ (processUrl xetAvailable o fs url).reportedFailed =
        (!(xetAvailable && xetSucceeds o.xetOracle) && !(reqSucceeds o.reqOracle)) := by
  have hall : MODEL_URLS.all (fun u => (get_xet_path u).isSome) = true := by decide
  have hmap : (get_xet_path url).isSome = true :=
    List.all_eq_true.mp hall url hmem
  have h := processUrl_attempts xetAvailable o fs url hfs hmap
  exact ⟨hmap, h.1, h.2⟩

/-- Witness for C1 at a concrete input: the first model URL on an empty
filesystem, with Xet available but timing out and the manual download
succeeding. -/
theorem claim1_witness :
    firstModelUrl ∈ MODEL_URLS
    ∧ (processUrl true urlOracleXetFail emptyFs firstModelUrl).attempts =
        [Attempt.xet, Attempt.http]
    ∧ (processUrl true urlOracleXetFail emptyFs firstModelUrl).reportedFailed = false := by
  have h := claim1_xet_then_http_fallback true urlOracleXetFail emptyFs
    firstModelUrl (by decide) rfl
  refine ⟨by decide, ?_, ?_⟩
  · rw [h.2.1]; rfl
  · rw [h.2.2]; rfl

/-- Claim C2: for a CivitAI model or LoRA catalog entry whose destination
does not exist: with a non-empty `CIVITAI_API_KEY` the first download carries
the `Authorization` header, and on failure exactly one retry without auth
headers is made; with an empty key, exactly one unauthenticated attempt and
no retry. -/
theorem claim2_civitai_auth_retry (apiKey : String) (o : EntryOracle) (fs : Fs)
    (destination : String) (hfs : fs destination = none) :
    (apiKey ≠ "" →
      (civitaiEntryDownload apiKey o fs destination).2 =
        (if fileSucceeds o.first then
          [some [("Authorization", "Bearer " ++ apiKey)]]
         else
          [some [("Authorization", "Bearer " ++ apiKey)], none]))
    ∧ (apiKey = "" →
      (civitaiEntryDownload apiKey o fs destination).2 = [some []]) := by
  constructor
  · intro hk
    cases hf : fileSucceeds o.first <;>
      simp [civitaiEntryDownload, hfs, download_file_eq, exceptBool, hk, hf]
  · intro hk
    subst hk
    simp [civitaiEntryDownload, hfs, download_file_eq, exceptBool]

/-- Witness for C2 at a concrete input: key `"k"`, first attempt rejected
with an HTTP error, so the retry without auth headers is made. -/
theorem claim2_witness :
    (civitaiEntryDownload "k"
        { first := fileAuthFailOracle, second := fileOkOracle }
        emptyFs "/workspace/stable-diffusion-webui/models/Stable-diffusion/DreamShaper XL.safetensors").2 =
      [some [("Authorization", "Bearer k")], none] := by
  have h := claim2_civitai_auth_retry "k"
    { first := fileAuthFailOracle, second := fileOkOracle }
    emptyFs "/workspace/stable-diffusion-webui/models/Stable-diffusion/DreamShaper XL.safetensors"
    rfl
  rw [h.1 (by decide)]
  rfl

/-- Claim C4: in both downloaders, a catalog entry whose destination path
already exists is not downloaded and the filesystem is left unchanged; in the
ComfyUI downloader the skipped entry additionally counts toward
`success_count`. -/
theorem claim4_skip_existing :
    (∀ (xetAvailable : Bool) (o : UrlOracle) (fs : Fs) (url : String)
       (c : List Nat), fs (get_destination_path url) = some c →
       processUrl xetAvailable o fs url =
         { fs := fs, attempts := [], succDelta := 1, xetDelta := 0,
           manualDelta := 0, reportedFailed := false })
    ∧ (∀ (apiKey : String) (o : EntryOracle) (fs : Fs) (destination : String)
        (c : List Nat), fs destination = some c →
       civitaiEntryDownload apiKey o fs destination = (fs, []))
    ∧ (∀ (o : FileOracle) (fs : Fs) (destination : String) (c : List Nat),
       fs destination = some c →
       simpleEntryDownload o fs destination = (fs, [])) := by
  refine ⟨?_, ?_, ?_⟩
  · intro xetAvailable o fs url c h
    exact processUrl_skip xetAvailable o fs url c h
  · intro apiKey o fs destination c h
    simp [civitaiEntryDownload, h]
  · intro o fs destination c h
    simp [simpleEntryDownload, h]

/-- Witness for C4 at a concrete input: the first model URL with its
destination already present. -/
theorem claim4_witness :
    (setFs emptyFs (get_destination_path firstModelUrl) (some [5]))
        (get_destination_path firstModelUrl) = some [5]
    ∧ processUrl true urlOracleXetFail
        (setFs emptyFs (get_destination_path firstModelUrl) (some [5]))
        firstModelUrl =
      { fs := setFs emptyFs (get_destination_path firstModelUrl) (some [5]),
        attempts := [], succDelta := 1, xetDelta := 0, manualDelta := 0,
        reportedFailed := false } := by
  have hfs : (setFs emptyFs (get_destination_path firstModelUrl) (some [5]))
      (get_destination_path firstModelUrl) = some [5] := by
    simp [setFs]
  exact ⟨hfs, claim4_skip_existing.1 true urlOracleXetFail _ firstModelUrl [5] hfs⟩

/-- Claim C5: a streamed HTTP download that fails after the destination file
has been opened for writing returns failure but leaves the partially written
destination file on disk; consequently a subsequent run of the same
downloader treats that destination as already existing and skips it. Stated
for both downloaders' helpers. -/
theorem claim5_partial_file_skip :
    (∀ (o : ReqOracle) (fs : Fs) (url : String) (k : Nat)
       (xetAvailable : Bool) (o2 : UrlOracle),
       o.makedirsExc = none → o.getExc = none → o.statusOk = true →
       o.openExc = none → o.failAfter = some k →
       (download_with_requests o fs (get_destination_path url)).2 = Except.ok false
       ∧ (download_with_requests o fs (get_destination_path url)).1
           (get_destination_path url) = some (writtenChunks o.chunks k)
       ∧ processUrl xetAvailable o2
           (download_with_requests o fs (get_destination_path url)).1 url =
           { fs := (download_with_requests o fs (get_destination_path url)).1,
             attempts := [], succDelta := 1, xetDelta := 0, manualDelta := 0,
             reportedFailed := false })
    ∧ (∀ (headers : Option (List (String × String))) (o : FileOracle) (fs : Fs)
        (destination : String) (k : Nat) (apiKey : String) (o2 : EntryOracle),
       o.getExc = none → o.statusOk = true → o.openExc = none →
       o.failAfter = some k →
       (download_file headers o fs destination).2 = Except.ok false
       ∧ (download_file headers o fs destination).1 destination =
           some (writtenChunks o.chunks k)
       ∧ civitaiEntryDownload apiKey o2
           (download_file headers o fs destination).1 destination =
           ((download_file headers o fs destination).1, [])) := by
  constructor
  · intro o fs url k xetAvailable o2 h1 h2 h3 h4 h5
    have hres : download_with_requests o fs (get_destination_path url) =
        (setFs fs (get_destination_path url) (some (writtenChunks o.chunks k)),
         Except.ok false) := by
      cases hse : o.streamExc <;>
        simp [download_with_requests, requestsBody, h1, h2, h3, h4, h5, hse,
          isExceptionInstance]
    rw [hres]
    refine ⟨rfl, by simp [setFs], ?_⟩
    exact processUrl_skip xetAvailable o2 _ url (writtenChunks o.chunks k)
      (by simp [setFs])
  · intro headers o fs destination k apiKey o2 h1 h2 h3 h4
    have hres : download_file headers o fs destination =
        (setFs fs destination (some (writtenChunks o.chunks k)),
         Except.ok false) := by
      cases hse : o.streamExc <;>
        simp [download_file, fileBody, h1, h2, h3, h4, hse, isExceptionInstance]
    rw [hres]
    refine ⟨rfl, by simp [setFs], ?_⟩
    simp [civitaiEntryDownload, setFs]

/-- Witness for C5 at a concrete input: a download of the first model URL
drops after one of two chunks; the partial file stays, and the next run's
loop iteration skips the URL, counting it as a success. -/
theorem claim5_witness :
    (download_with_requests httpDropOracle emptyFs
        (get_destination_path firstModelUrl)).2 = Except.ok false
    ∧ (download_with_requests httpDropOracle emptyFs
        (get_destination_path firstModelUrl)).1
        (get_destination_path firstModelUrl) = some [8192]
    ∧ processUrl true urlOracleXetFail
        (download_with_requests httpDropOracle emptyFs
          (get_destination_path firstModelUrl)).1 firstModelUrl =
      { fs := (download_with_requests httpDropOracle emptyFs
                (get_destination_path firstModelUrl)).1,
        attempts := [], succDelta := 1, xetDelta := 0, manualDelta := 0,
        reportedFailed := false } := by
  have h := claim5_partial_file_skip.1 httpDropOracle emptyFs firstModelUrl 1
    true urlOracleXetFail rfl rfl rfl rfl rfl
  refine ⟨h.1, ?_, h.2.2⟩
  rw [h.2.1]
  rfl

/-- Claim C7 counterexample: in setup_runpod.py, with an environment in which
only the `conda tos accept` command for pkgs/main fails, the failing external
command does not halt the script: every later step, including the checked
`conda update`, still executes, and the script exits with status 0 — the
claim requires that no later installation step be executed after a failing
external command. -/
theorem claim7_counterexample :
    srEnvTosFail SRCmd.tosPkgsMain = false
    ∧ (SRCmd.tosPkgsMain, false) ∈ (setupRun srEnvTosFail).1
    ∧ (SRCmd.condaUpdate, true) ∈ (setupRun srEnvTosFail).1
    ∧ (setupRun srEnvTosFail).1 = setupProgram true
    ∧ (setupRun srEnvTosFail).2 = 0 := by
  refine ⟨rfl, by decide, by decide, by decide, by decide⟩

/-- Claim C7 as amended: in the installer scripts and the setup script, every
step runs only if all preceding checked steps succeeded: a failing checked
external command halts the script with exit status 1 and is the last step
executed, and when all checked commands succeed the whole program executes
and the script exits 0 — even when unchecked commands (the TOS acceptances
and the conda test creation, run with `check=False`) fail, which is only
reported before continuing. -/
theorem claim7_amended :
    (∀ (env : CIStep → Bool) (i : CIStep × Bool),
        i ∈ (comfyInstallerRun env).1 → i.2 = true → env i.1 = false →
        (comfyInstallerRun env).2 = 1
        ∧ (comfyInstallerRun env).1.getLast? = some i)
    ∧ (∀ env : CIStep → Bool,
        (∀ i ∈ comfyInstallerProgram, i.2 = true → env i.1 = true) →
        comfyInstallerRun env = (comfyInstallerProgram, 0))
    ∧ (∀ (gitDirExists reqsFileExists : Bool) (env : AIStep → Bool)
        (i : AIStep × Bool),
        i ∈ (webuiInstallerRun gitDirExists reqsFileExists env).1 →
        i.2 = true → env i.1 = false →
        (webuiInstallerRun gitDirExists reqsFileExists env).2 = 1
        ∧ (webuiInstallerRun gitDirExists reqsFileExists env).1.getLast? = some i)
    ∧ (∀ (gitDirExists reqsFileExists : Bool) (env : AIStep → Bool),
        (∀ i ∈ webuiInstallerProgram gitDirExists reqsFileExists,
          i.2 = true → env i.1 = true) →
        webuiInstallerRun gitDirExists reqsFileExists env =
          (webuiInstallerProgram gitDirExists reqsFileExists, 0))
    ∧ (∀ (env : SRCmd → Bool) (i : SRCmd × Bool),
        i ∈ (setupRun env).1 → i.2 = true → env i.1 = false →
        (setupRun env).2 = 1 ∧ (setupRun env).1.getLast? = some i)
    ∧ (∀ env : SRCmd → Bool,
        (∀ i ∈ setupProgram (env SRCmd.condaCreateTest),
          i.2 = true → env i.1 = true) →
        setupRun env = (setupProgram (env SRCmd.condaCreateTest), 0)) := by
  refine ⟨?_, ?_, ?_, ?_, ?_, ?_⟩
  · intro env i hmem hchk hfail
    exact runSeq_checked_fail env comfyInstallerProgram i hmem hchk hfail
  · intro env h
    exact runSeq_all_checked_ok env comfyInstallerProgram h
  · intro g r env i hmem hchk hfail
    exact runSeq_checked_fail env (webuiInstallerProgram g r) i hmem hchk hfail
  · intro g r env h
    exact runSeq_all_checked_ok env (webuiInstallerProgram g r) h
  · intro env i hmem hchk hfail
    exact runSeq_checked_fail env (setupProgram (env SRCmd.condaCreateTest)) i
      hmem hchk hfail
  · intro env h
    exact runSeq_all_checked_ok env (setupProgram (env SRCmd.condaCreateTest)) h

/-- Witness for the amended C7 at a concrete input: with only the first TOS
acceptance failing, every checked command succeeds, so the whole setup
program executes and exits 0 (the script skips over the unchecked failure). -/
theorem claim7_witness :
    setupRun srEnvTosFail =
      (setupProgram (srEnvTosFail SRCmd.condaCreateTest), 0) :=
  claim7_amended.2.2.2.2.2 srEnvTosFail (by decide)

/-- Claim C8 counterexample: a fully successful run of the ComfyUI installer
executes its complete program and exits 0, yet none of its steps writes a
shell launch script — the claim requires each installer script to perform an
artifact-generation phase that writes shell launch scripts. -/
theorem claim8_counterexample :
    (comfyInstallerRun ciEnvAllOk).2 = 0
    ∧ (comfyInstallerRun ciEnvAllOk).1 = comfyInstallerProgram
    ∧ comfyInstallerProgram.all (fun i => !(ciWritesLaunchScript i.1)) = true := by
  refine ⟨by decide, by decide, by decide⟩

/-- Claim C8 as amended: the Automatic1111 installer performs environment
setup, then repository clone, then dependency install, then artifact
generation (writing shell launch scripts), and in every run no phase begins
before all earlier phases have completed; the ComfyUI installer performs
environment setup, then repository clone, then dependency install, then
custom-node installation (a further git clone), equally in phase order, but
contains no artifact-generation step: it writes no shell launch script. -/
theorem claim8_amended :
    (∀ (gitDirExists reqsFileExists : Bool) (env : AIStep → Bool),
       ((webuiInstallerRun gitDirExists reqsFileExists env).1.map
         (fun i => aiPhase i.1)).Pairwise (· ≤ ·))
    ∧ (∀ env : CIStep → Bool,
       ((comfyInstallerRun env).1.map (fun i => ciPhase i.1)).Pairwise (· ≤ ·))
    ∧ (webuiInstallerRun false true (fun _ => true)).1 =
        webuiInstallerProgram false true
    ∧ (webuiInstallerProgram false true).any
        (fun i => aiWritesLaunchScript i.1) = true
    ∧ comfyInstallerProgram.all (fun i => !(ciWritesLaunchScript i.1)) = true := by
  refine ⟨?_, ?_, by decide, by decide, by decide⟩
  · intro g r env
    have hpre := runSeq_exec_isPrefix env (webuiInstallerProgram g r)
    have hsub := (List.IsPrefix.sublist hpre).map (fun i => aiPhase i.1)
    have hs : ((webuiInstallerProgram g r).map
        (fun i => aiPhase i.1)).Pairwise (· ≤ ·) := by
      cases g <;> cases r <;> decide
    exact List.Pairwise.sublist hsub hs
  · intro env
    have hpre := runSeq_exec_isPrefix env comfyInstallerProgram
    have hsub := (List.IsPrefix.sublist hpre).map (fun i => ciPhase i.1)
    have hs : (comfyInstallerProgram.map
        (fun i => ciPhase i.1)).Pairwise (· ≤ ·) := by decide
    exact List.Pairwise.sublist hsub hs

/-- Claim C9 counterexample: the repository contains exactly two external
calls subject to a timeout (the `xet --version` check and the `xet cp`
download), not exactly one as claimed. -/
theorem claim9_counterexample :
    (externalCalls.filter (fun c => c.timeoutSeconds.isSome)).length = 2 := by
  decide

/-- Claim C9 as amended: exactly two external calls are subject to a timeout
— `subprocess.run(["xet", "--version"], timeout=10)` in
`check_xet_installed` and `subprocess.run(["xet", "cp", ...], timeout=3600)`
in `download_with_xet` — and every other external process invocation and
HTTP request in the repository is made without any timeout enforcement. -/
theorem claim9_amended :
    (externalCalls.filter (fun c => c.timeoutSeconds.isSome)).map
        (fun c => (c.site, c.timeoutSeconds)) =
      [("check_xet_installed: subprocess.run xet --version", some 10),
       ("download_with_xet: subprocess.run xet cp", some 3600)]
    ∧ (externalCalls.filter (fun c => c.timeoutSeconds.isNone)).length = 28
    ∧ externalCalls.length = 30 := by
  refine ⟨by decide, by decide, by decide⟩

end Installer

